import Mathlib

/-!
Verification of the alarmageddon alert bot core (duration parsing, silence
registry, alert router, ingestion orchestrator, acknowledgment engine)
against its natural-language specification.

The JavaScript modules are shallowly embedded: JS objects become structures,
`null`/`undefined` become `Option`, epoch-millisecond dates become `Nat`,
thrown exceptions become `Except.error`, and the sqlite store becomes an
explicit list of records (kept most-recent-first, matching the
`ORDER BY timestamp DESC` read path).  `new RegExp(p, 'i')` is embedded by a
small executable regular-expression engine over a subset of the JS syntax
(literals, `.`, postfix `*`, character classes); compilation returns `none`
for ill-formed patterns, which is where the JS constructor throws
`SyntaxError`, and the `i` flag is realised by lowercasing pattern literals
and input.  Matching is unanchored (`RegExp.prototype.test` searches), via
Brzozowski derivatives.
-/

namespace Alarmageddon

/-! ### Regular-expression model (for `new RegExp(pattern, 'i')`) -/

/-- Regular expression abstract syntax.  `cls neg cs` is a character class
`[...]`/`[^...]` with explicit members. -/
inductive RE where
  | fail : RE
  | eps : RE
  | chr (c : Char) : RE
  | dot : RE
  | cls (neg : Bool) (cs : List Char) : RE
  | alt (r s : RE) : RE
  | cat (r s : RE) : RE
  | star (r : RE) : RE
deriving DecidableEq

/-- Does the regular expression accept the empty string? -/
def nullable : RE → Bool
  | .fail => false
  | .eps => true
  | .chr _ => false
  | .dot => false
  | .cls _ _ => false
  | .alt r s => nullable r || nullable s
  | .cat r s => nullable r && nullable s
  | .star _ => true

/-- Brzozowski derivative of a regular expression by one character. -/
def deriv : RE → Char → RE
  | .fail, _ => .fail
  | .eps, _ => .fail
  | .chr c, a => if a == c then .eps else .fail
  | .dot, _ => .eps
  | .cls neg cs, a => if (cs.contains a) != neg then .eps else .fail
  | .alt r s, a => .alt (deriv r a) (deriv s a)
  | .cat r s, a =>
    if nullable r then .alt (.cat (deriv r a) s) (deriv s a)
    else .cat (deriv r a) s
  | .star r, a => .cat (deriv r a) (.star r)

/-- Does the regular expression match some prefix of the character list? -/
def matchPrefix (r : RE) : List Char → Bool
  | [] => nullable r
  | c :: cs => nullable r || matchPrefix (deriv r c) cs

/-- Does the regular expression match somewhere inside the character list
(unanchored search, as `RegExp.prototype.test` does)? -/
def searchChars (r : RE) : List Char → Bool
  | [] => nullable r
  | c :: cs => matchPrefix r (c :: cs) || searchChars r cs

/-- Lowercase every character of a string (`toLowerCase`). -/
def lowerStr (s : String) : String := ⟨s.data.map Char.toLower⟩

/-- Case-insensitive unanchored regex test, the embedding of
`new RegExp(pattern, 'i').test(s)` for a compiled pattern whose literals
were lowercased at compilation time. -/
def test (r : RE) (s : String) : Bool := searchChars r (lowerStr s).data

/-- Characters that are syntax in the modelled pattern subset; a bare
occurrence outside an escape or class is not a literal. -/
def specialChars : List Char :=
  ['.', '*', '[', ']', '\\', '(', ')', '|', '+', '?', '^', '$']

/-- Parse the body of a character class up to the closing bracket, returning
the members and the rest of the input; `none` on an unterminated class
(JS throws `SyntaxError` there, e.g. for the pattern consisting of a single
opening bracket). -/
def parseClsBody (fuel : Nat) (cs : List Char) (acc : List Char) :
    Option (List Char × List Char) :=
  match fuel, cs with
  | 0, _ => none
  | _, [] => none
  | _ + 1, ']' :: rest => some (acc, rest)
  | fuel + 1, '\\' :: c :: rest => parseClsBody fuel rest (acc ++ [c.toLower])
  | _ + 1, ['\\'] => none
  | f + 1, c :: rest => parseClsBody f rest (acc ++ [c.toLower])

/-- Parse one atom (literal, dot, escaped literal, or character class) from
the front of the input. -/
def parseAtom (cs : List Char) : Option (RE × List Char) :=
  match cs with
  | [] => none
  | '.' :: rest => some (.dot, rest)
  | '\\' :: c :: rest => some (.chr c.toLower, rest)
  | '[' :: '^' :: rest =>
    match parseClsBody (rest.length + 1) rest [] with
    | some (ms, rest') => some (.cls true ms, rest')
    | none => none
  | '[' :: rest =>
    match parseClsBody (rest.length + 1) rest [] with
    | some (ms, rest') => some (.cls false ms, rest')
    | none => none
  | c :: rest => if specialChars.contains c then none else some (.chr c.toLower, rest)

/-- Parse a whole pattern: a sequence of atoms, each optionally followed by a
postfix star.  `acc` is the regex for the input consumed so far. -/
def parseRE (fuel : Nat) (cs : List Char) (acc : RE) : Option RE :=
  match fuel, cs with
  | _, [] => some acc
  | 0, _ => none
  | fuel + 1, cs =>
    match parseAtom cs with
    | none => none
    | some (a, rest) =>
      match rest with
      | '*' :: rest' => parseRE fuel rest' (.cat acc (.star a))
      | _ => parseRE fuel rest (.cat acc a)

/-- Compile a pattern string, the embedding of `new RegExp(pattern, 'i')`:
`some` of the compiled regex on success, `none` where the JS constructor
throws `SyntaxError`. -/
def compileRegex (p : String) : Option RE :=
  parseRE (p.data.length + 1) p.data .eps

/-- The error message carried where the JS code lets a `SyntaxError` from
`new RegExp` propagate. -/
def jsRegexSyntaxError : String := "SyntaxError: invalid regular expression"

/-! ### Duration parser (`parseDuration`, silences.js) -/

/-- Millisecond multiplier per unit letter, `none` for an unsupported
letter (embedding the `{s, m, h, d}` multiplier table together with the
regex unit group `[smhd]`). -/
def unitMillis : Char → Option Nat
  | 's' => some 1000
  | 'm' => some (60 * 1000)
  | 'h' => some (60 * 60 * 1000)
  | 'd' => some (24 * 60 * 60 * 1000)
  | _ => none

/-- Numeric value of a digit string (embedding `parseInt` on a `\d+`
match). -/
def digitsVal (ds : List Char) : Nat :=
  ds.foldl (fun n c => n * 10 + (c.toNat - 48)) 0

/-- Embedding of `parseDuration`: match the input against
`^(\d+)([smhd])$` and multiply the magnitude by the unit factor; `null`
(here `none`) when the regex does not match. -/
def parseDuration (str : String) : Option Nat :=
  match str.data.getLast? with
  | none => none
  | some u =>
    let ds := str.data.dropLast
    if ds = [] then none
    else if ds.all Char.isDigit then
      match unitMillis u with
      | some m => some (digitsVal ds * m)
      | none => none
    else none

/-! ### Data model -/

/-- A webhook payload: the duck-typed JSON fields the code probes, each
possibly absent (`none` for a missing property). -/
structure Payload where
  title : Option String := none
  subject : Option String := none
  description : Option String := none
  message : Option String := none
  body : Option String := none
  severity : Option String := none
  level : Option String := none
  service : Option String := none
  hostname : Option String := none
  host : Option String := none
  source : Option String := none
deriving DecidableEq

/-- First candidate that is present and non-empty, else the empty string:
the embedding of a JS fallback chain `p.a || p.b || ''` (an empty string is
falsy and falls through). -/
def firstNonEmpty : List (Option String) → String
  | [] => ""
  | none :: rest => firstNonEmpty rest
  | some s :: rest => if s = "" then firstNonEmpty rest else s

/-- JS `x || y` on two nullable strings (empty string is falsy). -/
def jsOrOpt (a b : Option String) : Option String :=
  match a with
  | some s => if s = "" then b else some s
  | none => b

/-- JS truthiness of a nullable string. -/
def jsTruthy : Option String → Bool
  | none => false
  | some s => !(s = "")

/-- Routing action. -/
inductive Action where
  | PASS : Action
  | DROP : Action
  | REDIRECT : Action
deriving DecidableEq

/-- A routing decision (`alertId`, `action`, `destination`, `reason`; the
wall-clock decision timestamp is elided as it never feeds back into
control flow). -/
structure Decision where
  alertId : String
  action : Action
  destination : Option String
  reason : String
deriving DecidableEq

/-- A stored alert record, as assembled by `storeWebhook` and persisted in
the `alerts` table. -/
structure Alert where
  id : String
  timestamp : Nat
  payload : Payload
  silenced : Bool := false
  silencedBy : Option String := none
  acknowledged : Bool := false
  acknowledgedBy : Option String := none
  acknowledgedAt : Option Nat := none
  messageId : Option String := none
  channelId : Option String := none
  routingDecision : Option Decision := none
deriving DecidableEq

/-- An in-memory silence as built by `createSilence` in silences.js:
the pattern string plus the regex compiled from it with the `i` flag,
creation and expiration instants in epoch milliseconds, and the creating
actor. -/
structure Silence where
  id : String
  pattern : String
  regex : RE
  createdAt : Nat
  expiresAt : Nat
  createdBy : String
deriving DecidableEq

/-- A row of the `silences` table (database.js), carrying the soft-delete
`active` flag. -/
structure SilenceRow where
  id : String
  pattern : String
  duration : String
  expiresAt : Nat
  createdBy : String
  createdAt : Nat
  active : Bool
deriving DecidableEq

/-- The identifiers Discord returns for a successfully posted message. -/
structure MsgInfo where
  msgId : String
  chanId : String
deriving DecidableEq

/-! ### Silence registry (silences.js, in-memory) -/

/-- Synthesized search text from silences.js `isAlertSilenced`: space-join
of title, description, severity, service, hostname and source, each
resolved through its documented fallback chain. -/
def silenceSearchText (p : Payload) : String :=
  let title := firstNonEmpty [p.title, p.subject]
  let description := firstNonEmpty [p.description, p.message, p.body]
  let severity := firstNonEmpty [p.severity, p.level]
  let service := firstNonEmpty [p.service]
  let hostname := firstNonEmpty [p.hostname, p.host]
  let source := firstNonEmpty [p.source]
  title ++ " " ++ description ++ " " ++ severity ++ " " ++ service ++ " " ++
    hostname ++ " " ++ source

/-- Embedding of `cleanupExpiredSilences`: drop every silence whose
expiration is not strictly after `now` (the code removes those with
`new Date(expiresAt) <= now`), returning the surviving registry and the
removed (expired) silences. -/
def cleanupExpiredSilences (now : Nat) (st : List Silence) :
    List Silence × List Silence :=
  (st.filter (fun s => decide (now < s.expiresAt)),
   st.filter (fun s => decide (s.expiresAt ≤ now)))

/-- Embedding of `isAlertSilenced`: clean up expired silences first, then
return the first surviving silence whose regex matches the synthesized
search text, together with the registry after cleanup. -/
def isAlertSilenced (p : Payload) (now : Nat) (st : List Silence) :
    Option Silence × List Silence :=
  let st' := (cleanupExpiredSilences now st).1
  (st'.find? (fun s => test s.regex (silenceSearchText p)), st')

/-- Embedding of `createSilence` (silences.js): parse the duration string;
a failed parse or a zero result is the invalid-duration signal
(`ok (none, st)`, the JS `return null` path, hit before any regex work);
otherwise compile `pattern || '.*'` with the `i` flag, which throws
(`Except.error`) on an invalid pattern, and on success append the new
silence to the registry.  `counter` stands for the module-level
`silenceIdCounter`, `user` for `user?.username || 'Unknown'`. -/
def createSilence (pattern duration user : String) (counter now : Nat)
    (st : List Silence) : Except String (Option Silence × List Silence) :=
  match parseDuration duration with
  | none => .ok (none, st)
  | some d =>
    if d = 0 then .ok (none, st)
    else
      let p := if pattern = "" then ".*" else pattern
      match compileRegex p with
      | none => .error jsRegexSyntaxError
      | some re =>
        let s : Silence :=
          { id := "silence_" ++ toString counter, pattern := p, regex := re,
            createdAt := now, expiresAt := now + d, createdBy := user }
        .ok (some s, st ++ [s])

/-- Embedding of the in-memory `deleteSilence` (silences.js): `findIndex`
then `splice`, i.e. remove the first silence with the given id from the
registry outright, reporting whether one existed. -/
def deleteSilenceMem : String → List Silence → Bool × List Silence
  | _, [] => (false, [])
  | id, s :: rest =>
    if s.id == id then (true, rest)
    else
      let r := deleteSilenceMem id rest
      (r.1, s :: r.2)

/-- Embedding of the database-layer `deleteSilence` (database.js):
`UPDATE silences SET active = 0 WHERE id = ?`, returning whether any row
matched; every row is retained. -/
def dbDeleteSilence (id : String) (rows : List SilenceRow) :
    Bool × List SilenceRow :=
  (rows.any (fun r => r.id == id),
   rows.map (fun r => if r.id == id then { r with active := false } else r))

/-! ### Alert router (router.js) -/

/-- Router configuration taken from the environment: `DEFAULT_CHANNEL_ID`
and `DB_CHANNEL_ID`, each possibly unset. -/
structure RouterEnv where
  defaultChannelId : Option String
  dbChannelId : Option String
deriving DecidableEq

/-- Is `needle` a contiguous substring of `hay` starting at the front? -/
def startsWithL : List Char → List Char → Bool
  | _, [] => true
  | [], _ :: _ => false
  | h :: hs, n :: ns => h == n && startsWithL hs ns

/-- Is `needle` a contiguous substring of `hay` anywhere (the embedding of
`String.prototype.includes`)? -/
def containsSubL : List Char → List Char → Bool
  | hay, needle =>
    startsWithL hay needle ||
      match hay with
      | [] => false
      | _ :: t => containsSubL t needle

/-- String-level `includes`. -/
def containsSub (hay needle : String) : Bool := containsSubL hay.data needle.data

/-- Resolved service field used by the router (`payload.service || ''`). -/
def serviceOf (p : Payload) : String := firstNonEmpty [p.service]

/-- Resolved title field used by the router
(`payload.title || payload.subject || ''`). -/
def titleOf (p : Payload) : String := firstNonEmpty [p.title, p.subject]

/-- The single hardcoded routing rule of `AlertRouter.route`: the service,
lowercased, equals `database`, or the lowercased title contains `database`
or `db`. -/
def isDatabaseAlert (p : Payload) : Bool :=
  lowerStr (serviceOf p) == "database" ||
    containsSub (lowerStr (titleOf p)) "database" ||
    containsSub (lowerStr (titleOf p)) "db"

/-- Embedding of `AlertRouter.route`: the database rule fires first and
redirects to `DB_CHANNEL_ID || defaultChannelId`; otherwise the default
PASS decision targets the default channel.  The in-memory decision log it
appends to is audit-only and elided here. -/
def route (env : RouterEnv) (a : Alert) : Decision :=
  if isDatabaseAlert a.payload then
    { alertId := a.id, action := .REDIRECT,
      destination := jsOrOpt env.dbChannelId env.defaultChannelId,
      reason := "Matched database routing rule" }
  else
    { alertId := a.id, action := .PASS,
      destination := env.defaultChannelId,
      reason := "Default routing (no matching rules)" }

/-! ### Alert lifecycle orchestrator (`storeWebhook`, webhooks.js, the
database-backed version) -/

/-- Log line of the silenced branch. -/
def silencedLog : String := "Alert silenced, not sending to Discord"

/-- Log line of the DROP branch. -/
def droppedLog : String := "Alert dropped by router"

/-- Embedding of `sendAlertToDiscord`: a falsy channel id short-circuits to
`null`; otherwise one Discord POST is attempted on that channel, whose
outcome the environment function `send` decides (`none` = post failed).
The second component records the channels actually posted to. -/
def sendAlertToDiscord (send : String → Option MsgInfo) (dest : Option String) :
    Option MsgInfo × List String :=
  match dest with
  | none => (none, [])
  | some c => if c = "" then (none, []) else (send c, [c])

/-- Copy the returned message and channel identifiers onto the alert when a
message was actually posted. -/
def applyDelivery (a : Alert) : Option MsgInfo → Alert
  | none => a
  | some m => { a with messageId := some m.msgId, channelId := some m.chanId }

/-- Everything `storeWebhook` leaves behind: the alert it returns, the
silence registry after lazy cleanup, the alerts store after `saveAlert`
(most-recent-first, so insertion is prepending), the persisted routing
decision log after any `saveRoutingDecision`, the Discord channels posted
to, and the notable log lines. -/
structure IngestResult where
  alert : Alert
  silences : List Silence
  db : List Alert
  routingLog : List Decision
  posts : List String
  logs : List String
deriving DecidableEq

/-- Embedding of the database-backed `storeWebhook`: build the timestamped
alert, consult the silence registry; when silenced, flag the alert and skip
routing and delivery; otherwise route, persist the routing decision, and
deliver on PASS (with a truthy destination) or REDIRECT; finally persist
the alert. -/
def storeWebhook (p : Payload) (idStr : String) (now : Nat) (env : RouterEnv)
    (send : String → Option MsgInfo) (st : List Silence) (db : List Alert)
    (rlog : List Decision) : IngestResult :=
  let a0 : Alert := { id := idStr, timestamp := now, payload := p }
  let cleaned := isAlertSilenced p now st
  match cleaned.1 with
  | some s =>
    let a1 := { a0 with silenced := true, silencedBy := some s.id }
    { alert := a1, silences := cleaned.2, db := a1 :: db, routingLog := rlog,
      posts := [], logs := [silencedLog] }
  | none =>
    let d := route env a0
    let a1 := { a0 with routingDecision := some d }
    let rlog' := rlog ++ [d]
    if d.action = Action.PASS ∧ jsTruthy d.destination then
      let sent := sendAlertToDiscord send d.destination
      let a2 := applyDelivery a1 sent.1
      { alert := a2, silences := cleaned.2, db := a2 :: db,
        routingLog := rlog', posts := sent.2, logs := [] }
    else if d.action = Action.DROP then
      { alert := a1, silences := cleaned.2, db := a1 :: db,
        routingLog := rlog', posts := [], logs := [droppedLog] }
    else if d.action = Action.REDIRECT then
      let sent := sendAlertToDiscord send d.destination
      let a2 := applyDelivery a1 sent.1
      { alert := a2, silences := cleaned.2, db := a2 :: db,
        routingLog := rlog', posts := sent.2, logs := [] }
    else
      { alert := a1, silences := cleaned.2, db := a1 :: db,
        routingLog := rlog', posts := [], logs := [] }

/-! ### Alert record store reads and acknowledgment engine
(database.js and the database-backed webhooks.js) -/

/-- Embedding of `getAlert`: `SELECT * FROM alerts WHERE id = ?`, the first
matching row. -/
def getAlertDb (db : List Alert) (id : String) : Option Alert :=
  db.find? (fun a => a.id == id)

/-- Embedding of `getRecentAlerts(limit, includeAcknowledged)`: the store
list is kept ordered by timestamp descending, so the query is a filter on
the acknowledged flag followed by `LIMIT`. -/
def getRecentAlerts (db : List Alert) (limit : Nat)
    (includeAcknowledged : Bool) : List Alert :=
  (if includeAcknowledged then db
   else db.filter (fun a => !a.acknowledged)).take limit

/-- The acknowledgment field update `{acknowledged: 1, acknowledgedBy,
acknowledgedAt}` passed to `updateAlert`. -/
def setAcknowledged (a : Alert) (actor : String) (now : Nat) : Alert :=
  { a with acknowledged := true, acknowledgedBy := some actor,
           acknowledgedAt := some now }

/-- Embedding of `updateAlert` specialised to the acknowledgment update:
`UPDATE alerts SET ... WHERE id = ?`, returning whether any row matched
together with the new store. -/
def updateAlertAck (db : List Alert) (id actor : String) (now : Nat) :
    Bool × List Alert :=
  (db.any (fun a => a.id == id),
   db.map (fun a => if a.id == id then setAcknowledged a actor now else a))

/-- Log line of the not-found branch of `acknowledgeWebhook`. -/
def notFoundLog : String := "Webhook not found for acknowledgment"

/-- Log line of the already-acknowledged branch of `acknowledgeWebhook`. -/
def alreadyAckedLog : String := "Webhook already acknowledged"

/-- Log line of the success branch of `acknowledgeWebhook`. -/
def ackedLog : String := "Webhook acknowledged"

/-- Embedding of the database-backed `acknowledgeWebhook`: fetch by id;
absent or already acknowledged each returns `null` to the caller with its
own warning logged and the store untouched; otherwise apply the update and
return the re-fetched alert.  Result: returned value, store after, log
lines. -/
def acknowledgeWebhook (id actor : String) (now : Nat) (db : List Alert) :
    Option Alert × List Alert × List String :=
  match getAlertDb db id with
  | none => (none, db, [notFoundLog])
  | some w =>
    if w.acknowledged then (none, db, [alreadyAckedLog])
    else
      let u := updateAlertAck db id actor now
      if u.1 then (getAlertDb u.2 id, u.2, [ackedLog])
      else (none, u.2, [])

/-- Synthesized search text from `acknowledgeWebhooksByPattern`: space-join
of title, description, severity, service and hostname through their
fallback chains (this code path does not include the source field). -/
def ackSearchText (p : Payload) : String :=
  let title := firstNonEmpty [p.title, p.subject]
  let description := firstNonEmpty [p.description, p.message, p.body]
  let severity := firstNonEmpty [p.severity, p.level]
  let service := firstNonEmpty [p.service]
  let hostname := firstNonEmpty [p.hostname, p.host]
  title ++ " " ++ description ++ " " ++ severity ++ " " ++ service ++ " " ++
    hostname

/-- The per-alert loop of `acknowledgeWebhooksByPattern` over the scanned
window `ws`: skip already-acknowledged entries, test the pattern against the
synthesized text, update matching alerts one by one in the store, and
collect the re-fetched updated records in order. -/
def ackByPatternLoop (re : RE) (actor : String) (now : Nat) :
    List Alert → List Alert → List Alert × List Alert
  | [], db => ([], db)
  | w :: ws, db =>
    if w.acknowledged then ackByPatternLoop re actor now ws db
    else if test re (ackSearchText w.payload) then
      let u := updateAlertAck db w.id actor now
      let rest := ackByPatternLoop re actor now ws u.2
      if u.1 then ((getAlertDb u.2 w.id).toList ++ rest.1, rest.2)
      else rest
    else ackByPatternLoop re actor now ws db

/-- Embedding of the database-backed `acknowledgeWebhooksByPattern`:
compile the pattern case-insensitively (an invalid pattern throws), scan
the 100 most recent unacknowledged alerts, and acknowledge every match.
Result: the newly acknowledged alerts, the always-empty `alreadyAcked`
list, and the store after. -/
def acknowledgeWebhooksByPattern (pattern actor : String) (now : Nat)
    (db : List Alert) : Except String (List Alert × List Alert × List Alert) :=
  match compileRegex pattern with
  | none => .error jsRegexSyntaxError
  | some re =>
    let recent := getRecentAlerts db 100 false
    let r := ackByPatternLoop re actor now recent db
    .ok (r.1, [], r.2)

/-! ### Concrete fixtures used by witnesses and counterexamples -/

/-- A silence on the pattern `disk`, as `createSilence("disk", "10m", alice)`
at instant 0 produces. -/
def cxSilence : Silence :=
  { id := "silence_1", pattern := "disk",
    regex := (compileRegex "disk").getD .fail,
    createdAt := 0, expiresAt := 600000, createdBy := "alice" }

/-- A payload whose title mentions `disk`. -/
def cxPayload : Payload := { title := some "disk is full" }

/-- The payload of end-to-end scenario 1 of the specification. -/
def scenarioPayload : Payload :=
  { title := some "DB disk full", severity := some "critical",
    service := some "database" }

/-- Scenario 1 payload wrapped as an alert record at ingestion. -/
def scenarioAlert : Alert :=
  { id := "alert_1", timestamp := 0, payload := scenarioPayload }

/-! ### C2: duration grammar -/

/-- C2: for every string matching `^(\d+)([smhd])$`, `parseDuration` returns
the parsed magnitude times the millisecond factor of the unit; for every
string admitting no such decomposition it returns the invalid signal
`none`. -/
theorem parseDuration_grammar (str : String) :
    (∀ ds u m, str.data = ds ++ [u] → ds ≠ [] → ds.all Char.isDigit = true →
      unitMillis u = some m → parseDuration str = some (digitsVal ds * m)) ∧
    ((∀ ds u, str.data = ds ++ [u] →
        ¬(ds ≠ [] ∧ ds.all Char.isDigit = true ∧ (unitMillis u).isSome = true)) →
      parseDuration str = none) := by
  constructor
  · intro ds u m hsplit hne hdig hm
    unfold parseDuration
    rw [hsplit]
    simp only [List.getLast?_concat, List.dropLast_concat]
    simp [hne, hdig, hm]
  · intro h
    rcases List.eq_nil_or_concat str.data with hnil | ⟨ds, u, hsplit⟩
    · unfold parseDuration
      rw [hnil]
      rfl
    · rw [List.concat_eq_append] at hsplit
      have h' := h ds u hsplit
      unfold parseDuration
      rw [hsplit]
      simp only [List.getLast?_concat, List.dropLast_concat]
      by_cases hds : ds = []
      · simp [hds]
      · by_cases hdig : ds.all Char.isDigit = true
        · have hns : (unitMillis u).isSome ≠ true := fun hs => h' ⟨hds, hdig, hs⟩
          have hm : unitMillis u = none := by
            cases hmm : unitMillis u with
            | none => rfl
            | some m => exact absurd (by simp [hmm]) hns
          simp [hds, hdig, hm]
        · simp [hds, hdig]

/-- Witness for C2 at the grammar instances `30s` (valid) and `5x`
(invalid). -/
theorem parseDuration_grammar_witness :
    parseDuration "30s" = some 30000 ∧ parseDuration "5x" = none := by
  constructor
  · have h := (parseDuration_grammar "30s").1 ['3', '0'] 's' 1000 (by decide)
      (by decide) (by decide) (by decide)
    exact h.trans (by decide)
  · refine (parseDuration_grammar "5x").2 ?_
    intro ds u hsplit
    have hlast := congrArg List.getLast? hsplit
    rw [List.getLast?_concat] at hlast
    have hdata : ("5x".data : List Char) = ['5', 'x'] := rfl
    rw [hdata] at hlast
    have hu : u = 'x' := by
      have : some 'x' = some u := by simpa using hlast
      exact (Option.some.inj this).symm
    rintro ⟨-, -, hs⟩
    rw [hu] at hs
    exact absurd hs (by decide)

/-! ### C3: zero and invalid durations -/

/-- Counterexample for C3 as stated: parsing the string `0s` does not yield
the invalid signal; `parseDuration` returns the number 0 (the zero check
lives in `createSilence`, not in the parser). -/
theorem parseDuration_zero_counterexample :
    parseDuration "0s" = some 0 ∧ parseDuration "0s" ≠ none := by
  constructor <;> decide

/-- C3 as amended: wrong-format or unsupported-unit inputs make
`parseDuration` return `none`, a zero magnitude makes it return 0, and in
either case `createSilence` yields the explicit invalid-duration signal
(`ok (none, st)`) without throwing and without creating a silence. -/
theorem createSilence_rejects_zero_or_invalid (pattern duration user : String)
    (counter now : Nat) (st : List Silence)
    (h : parseDuration duration = none ∨ parseDuration duration = some 0) :
    createSilence pattern duration user counter now st = .ok (none, st) := by
  rcases h with h | h <;> simp [createSilence, h]

/-- Witness for the amended C3 at the input `0s`. -/
theorem createSilence_rejects_zero_witness :
    (parseDuration "0s" = none ∨ parseDuration "0s" = some 0) ∧
    createSilence "cpu" "0s" "alice" 1 0 [] = .ok (none, []) :=
  ⟨Or.inr (by decide),
   createSilence_rejects_zero_or_invalid "cpu" "0s" "alice" 1 0 []
     (Or.inr (by decide))⟩

/-! ### C4: invalid regex patterns -/

/-- Counterexample for C4 as stated: on the syntactically invalid pattern
`[` both silence creation (with a valid duration) and pattern-based
acknowledgment throw the regex construction error instead of returning an
explicit invalid-pattern result. -/
theorem invalid_pattern_counterexample :
    createSilence "[" "10m" "alice" 1 0 [] = .error jsRegexSyntaxError ∧
    acknowledgeWebhooksByPattern "[" "alice" 0 [] = .error jsRegexSyntaxError := by
  constructor <;> rfl

/-- C4 as amended: for every pattern that fails to compile, silence creation
(once the duration check has passed) and pattern-based acknowledgment
propagate the thrown `SyntaxError` rather than reporting an explicit
invalid-pattern signal; no silence is created and no alert is touched. -/
theorem invalid_pattern_throws (pattern duration user : String)
    (counter now : Nat) (st : List Silence) (db : List Alert) (d : Nat)
    (hc : compileRegex pattern = none) (hp : pattern ≠ "")
    (hd : parseDuration duration = some d) (hd0 : d ≠ 0) :
    createSilence pattern duration user counter now st =
      .error jsRegexSyntaxError ∧
    acknowledgeWebhooksByPattern pattern user now db =
      .error jsRegexSyntaxError := by
  constructor
  · simp [createSilence, hd, hd0, hp, hc]
  · simp [acknowledgeWebhooksByPattern, hc]

/-- Witness for the amended C4 at the pattern `[` with duration `10m`. -/
theorem invalid_pattern_throws_witness :
    compileRegex "[" = none ∧
    createSilence "[" "10m" "bob" 2 0 [] = .error jsRegexSyntaxError :=
  ⟨by decide,
   (invalid_pattern_throws "[" "10m" "bob" 2 0 [] [] 600000 (by decide)
     (by decide) (by decide) (by decide)).1⟩

/-! ### C9: silence deletion semantics -/

/-- The found flag of the in-memory delete reports whether a silence with
the id exists. -/
theorem deleteSilenceMem_found (id : String) (st : List Silence) :
    (deleteSilenceMem id st).1 = true ↔ ∃ s ∈ st, s.id = id := by
  induction st with
  | nil => simp [deleteSilenceMem]
  | cons s rest ih =>
    by_cases hs : s.id == id
    · simp only [deleteSilenceMem, hs, if_pos]
      have : s.id = id := by simpa using hs
      simp [this]
    · simp only [deleteSilenceMem, hs]
      have hne : ¬s.id = id := by simpa using hs
      simp [ih, hne]

/-- The in-memory delete removes exactly one record when one matches. -/
theorem deleteSilenceMem_length (id : String) (st : List Silence) :
    (deleteSilenceMem id st).2.length =
      if st.any (fun s => s.id == id) then st.length - 1 else st.length := by
  induction st with
  | nil => simp [deleteSilenceMem]
  | cons s rest ih =>
    by_cases hs : s.id == id
    · simp [deleteSilenceMem, hs]
    · simp only [deleteSilenceMem, hs, if_neg, Bool.false_eq_true,
        not_false_eq_true, List.any_cons, Bool.false_or, List.length_cons]
      rw [ih]
      by_cases ha : rest.any (fun s => s.id == id)
      · rw [if_pos ha, if_pos ha]
        have : 1 ≤ rest.length := by
          rcases List.any_eq_true.mp ha with ⟨x, hx, -⟩
          exact List.length_pos.mpr (List.ne_nil_of_mem hx)
        omega
      · rw [if_neg ha, if_neg ha]

/-- Counterexample for C9 as stated: deleting the only silence from the
in-memory registry (the `deleteSilence` that the command layer calls)
removes the record outright; afterwards no record with that id exists in
the store, so silences are hard-deleted. -/
theorem silence_hard_delete_counterexample :
    deleteSilenceMem "silence_1" [cxSilence] = (true, []) ∧
    ((deleteSilenceMem "silence_1" [cxSilence]).2.find?
      (fun s => s.id == "silence_1")) = none := by
  constructor <;> rfl

/-- C9 as amended: only the database-layer `deleteSilence` soft-deletes —
it flips `active` to false, retains every row, and reports whether a row
with the id existed; the in-memory registry delete used by the silence
command instead removes the first matching record outright (shrinking the
store), reporting whether one existed. -/
theorem silence_delete_semantics (id : String) (rows : List SilenceRow)
    (st : List Silence) :
    ((dbDeleteSilence id rows).1 = true ↔ ∃ r ∈ rows, r.id = id) ∧
    (dbDeleteSilence id rows).2.length = rows.length ∧
    (∀ r ∈ rows, r.id = id → { r with active := false } ∈ (dbDeleteSilence id rows).2) ∧
    (∀ r ∈ rows, r.id ≠ id → r ∈ (dbDeleteSilence id rows).2) ∧
    ((deleteSilenceMem id st).1 = true ↔ ∃ s ∈ st, s.id = id) ∧
    (deleteSilenceMem id st).2.length =
      (if st.any (fun s => s.id == id) then st.length - 1 else st.length) := by
  refine ⟨?_, ?_, ?_, ?_, deleteSilenceMem_found id st,
    deleteSilenceMem_length id st⟩
  · simp [dbDeleteSilence, List.any_eq_true]
  · simp [dbDeleteSilence]
  · intro r hr hid
    have := List.mem_map_of_mem
      (fun r : SilenceRow => if r.id == id then { r with active := false } else r) hr
    simpa [dbDeleteSilence, hid] using this
  · intro r hr hid
    have := List.mem_map_of_mem
      (fun r : SilenceRow => if r.id == id then { r with active := false } else r) hr
    simpa [dbDeleteSilence, hid] using this

/-- A concrete row of the `silences` table. -/
def cxRow : SilenceRow :=
  { id := "s1", pattern := "disk", duration := "10m", expiresAt := 600000,
    createdBy := "alice", createdAt := 0, active := true }

/-- Witness for the amended C9: a matching db row is retained inactive, and
the in-memory registry shrinks. -/
theorem silence_delete_semantics_witness :
    ((dbDeleteSilence "s1" [cxRow]).1 = true) ∧
    (deleteSilenceMem "silence_1" [cxSilence]).2.length =
      (if [cxSilence].any (fun s => s.id == "silence_1") then
        [cxSilence].length - 1 else [cxSilence].length) := by
  constructor
  · exact (silence_delete_semantics "s1" [cxRow] []).1.mpr ⟨cxRow, by simp, rfl⟩
  · exact (silence_delete_semantics "silence_1" [] [cxSilence]).2.2.2.2.2

/-! ### C10: the router never drops -/

/-- C10: for every environment and alert the implemented router decides
PASS or REDIRECT, never DROP, and consequently the DROP branch of
`storeWebhook` (which would log the drop and skip delivery) is unreachable
for every ingested payload. -/
theorem route_never_drop (env : RouterEnv) (a : Alert) (p : Payload)
    (idStr : String) (now : Nat) (send : String → Option MsgInfo)
    (st : List Silence) (db : List Alert) (rlog : List Decision) :
    ((route env a).action = Action.PASS ∨
      (route env a).action = Action.REDIRECT) ∧
    droppedLog ∉ (storeWebhook p idStr now env send st db rlog).logs := by
  constructor
  · unfold route
    by_cases h : isDatabaseAlert a.payload <;> simp [h]
  · cases hsil : (isAlertSilenced p now st).1 with
    | some s =>
      simp only [storeWebhook, hsil]
      decide
    | none =>
      by_cases hdb : isDatabaseAlert p
      · simp [storeWebhook, hsil, route, hdb]
      · by_cases ht : jsTruthy env.defaultChannelId = true
        · simp [storeWebhook, hsil, route, hdb, ht]
        · simp [storeWebhook, hsil, route, hdb, ht]

/-! ### C6: database routing rule -/

/-- C6: the router redirects to the database destination exactly when the
lowercased service equals `database` or the lowercased title contains
`database` or `db`; the matching rule produces the REDIRECT decision to
`DB_CHANNEL_ID || DEFAULT_CHANNEL_ID`, and when no rule matches the default
PASS decision targets the primary configured destination. -/
theorem route_database_characterization (env : RouterEnv) (a : Alert) :
    ((route env a).action = Action.REDIRECT ↔ isDatabaseAlert a.payload = true) ∧
    (isDatabaseAlert a.payload = true ↔
      (lowerStr (serviceOf a.payload) = "database" ∨
        containsSub (lowerStr (titleOf a.payload)) "database" = true ∨
        containsSub (lowerStr (titleOf a.payload)) "db" = true)) ∧
    (isDatabaseAlert a.payload = true →
      route env a =
        { alertId := a.id, action := Action.REDIRECT,
          destination := jsOrOpt env.dbChannelId env.defaultChannelId,
          reason := "Matched database routing rule" }) ∧
    (isDatabaseAlert a.payload = false →
      route env a =
        { alertId := a.id, action := Action.PASS,
          destination := env.defaultChannelId,
          reason := "Default routing (no matching rules)" }) := by
  refine ⟨?_, ?_, ?_, ?_⟩
  · by_cases h : isDatabaseAlert a.payload <;> simp [route, h]
  · simp only [isDatabaseAlert, Bool.or_eq_true, beq_iff_eq]
    tauto
  · intro h
    simp [route, h]
  · intro h
    simp [route, h]

/-- Witness for C6 at end-to-end scenario 1: the payload with title
`DB disk full`, severity `critical`, service `database` is routed with
action REDIRECT. -/
theorem route_database_characterization_witness :
    (route ⟨some "chan-default", some "chan-db"⟩ scenarioAlert).action =
      Action.REDIRECT :=
  (route_database_characterization ⟨some "chan-default", some "chan-db"⟩
    scenarioAlert).1.mpr (by decide)

/-! ### C1: silence matching -/

/-- C1: `isAlertSilenced` returns a silence exactly when some stored
silence is unexpired (expiration strictly after now) and its compiled regex
matches the synthesized search text; moreover any returned silence is
itself stored, unexpired and matching.  Otherwise it returns the none
signal. -/
theorem isAlertSilenced_iff (p : Payload) (now : Nat) (st : List Silence) :
    (((isAlertSilenced p now st).1).isSome = true ↔
      ∃ s ∈ st, now < s.expiresAt ∧ test s.regex (silenceSearchText p) = true) ∧
    (∀ s, (isAlertSilenced p now st).1 = some s →
      s ∈ st ∧ now < s.expiresAt ∧ test s.regex (silenceSearchText p) = true) := by
  constructor
  · simp only [isAlertSilenced, cleanupExpiredSilences]
    rw [List.find?_isSome]
    constructor
    · rintro ⟨s, hs, ht⟩
      rw [List.mem_filter] at hs
      exact ⟨s, hs.1, by simpa using hs.2, ht⟩
    · rintro ⟨s, hs, hlt, ht⟩
      exact ⟨s, List.mem_filter.mpr ⟨hs, by simpa using hlt⟩, ht⟩
  · intro s hfind
    simp only [isAlertSilenced, cleanupExpiredSilences] at hfind
    have h1 := List.find?_some hfind
    have h2 := List.mem_of_find?_eq_some hfind
    rw [List.mem_filter] at h2
    exact ⟨h2.1, by simpa using h2.2, h1⟩

/-- Witness for C1: the `disk` silence, unexpired at instant 5, silences a
payload whose title mentions disk. -/
theorem isAlertSilenced_iff_witness :
    ((isAlertSilenced cxPayload 5 [cxSilence]).1).isSome = true :=
  (isAlertSilenced_iff cxPayload 5 [cxSilence]).1.mpr
    ⟨cxSilence, by decide, by decide, by decide⟩

/-! ### C5: the silenced ingestion path -/

/-- C5: when the silence registry matches, `storeWebhook` flags the alert
as silenced with the matched silence id, records no routing decision
(neither on the alert nor in the persisted decision log), posts no chat
message, and still persists the alert into the store. -/
theorem storeWebhook_silenced (p : Payload) (idStr : String) (now : Nat)
    (env : RouterEnv) (send : String → Option MsgInfo) (st : List Silence)
    (db : List Alert) (rlog : List Decision) (s : Silence)
    (h : (isAlertSilenced p now st).1 = some s) :
    (storeWebhook p idStr now env send st db rlog).alert.silenced = true ∧
    (storeWebhook p idStr now env send st db rlog).alert.silencedBy =
      some s.id ∧
    (storeWebhook p idStr now env send st db rlog).alert.routingDecision =
      none ∧
    (storeWebhook p idStr now env send st db rlog).routingLog = rlog ∧
    (storeWebhook p idStr now env send st db rlog).posts = [] ∧
    (storeWebhook p idStr now env send st db rlog).db =
      (storeWebhook p idStr now env send st db rlog).alert :: db := by
  simp [storeWebhook, h]

/-- Witness for C5 at end-to-end scenario 2: a `disk` silence suppresses an
alert whose title contains disk; nothing is posted and no decision is
logged. -/
theorem storeWebhook_silenced_witness :
    (isAlertSilenced cxPayload 5 [cxSilence]).1 = some cxSilence ∧
    ((storeWebhook cxPayload "alert_1" 5 ⟨some "chan-default", none⟩
        (fun c => some ⟨"m1", c⟩) [cxSilence] [] []).posts = [] ∧
      (storeWebhook cxPayload "alert_1" 5 ⟨some "chan-default", none⟩
        (fun c => some ⟨"m1", c⟩) [cxSilence] [] []).routingLog = []) :=
  ⟨by decide,
   (storeWebhook_silenced cxPayload "alert_1" 5 ⟨some "chan-default", none⟩
      (fun c => some ⟨"m1", c⟩) [cxSilence] [] [] cxSilence (by decide)).2.2.2.2.1,
   (storeWebhook_silenced cxPayload "alert_1" 5 ⟨some "chan-default", none⟩
      (fun c => some ⟨"m1", c⟩) [cxSilence] [] [] cxSilence (by decide)).2.2.2.1⟩

/-! ### C8: acknowledgment by id -/

/-- Mapping an id-preserving function over the store commutes with the
fetch-by-id. -/
theorem find?_map_of_pred_eq (f : Alert → Alert) (p : Alert → Bool)
    (l : List Alert) (h : ∀ a, p (f a) = p a) :
    (l.map f).find? p = (l.find? p).map f := by
  induction l with
  | nil => rfl
  | cons a t ih =>
    cases hp : p a with
    | true =>
      rw [List.map_cons, List.find?_cons_of_pos _ (by rw [h a]; exact hp),
        List.find?_cons_of_pos _ hp]
      rfl
    | false =>
      rw [List.map_cons, List.find?_cons_of_neg _ (by rw [h a, hp]; simp),
        List.find?_cons_of_neg _ (by rw [hp]; simp)]
      exact ih

/-- C8: acknowledging by id reports the not-found signal when no alert has
the id, reports the distinct already-acknowledged signal and changes
nothing when the alert is already acknowledged (so re-acknowledging is a
no-op), and otherwise applies the acknowledged/actor/timestamp update
through the store and returns the updated alert. -/
theorem acknowledgeWebhook_spec (id actor : String) (now : Nat)
    (db : List Alert) :
    (getAlertDb db id = none →
      acknowledgeWebhook id actor now db = (none, db, [notFoundLog])) ∧
    (∀ w, getAlertDb db id = some w → w.acknowledged = true →
      acknowledgeWebhook id actor now db = (none, db, [alreadyAckedLog])) ∧
    notFoundLog ≠ alreadyAckedLog ∧
    (∀ w, getAlertDb db id = some w → w.acknowledged = false →
      acknowledgeWebhook id actor now db =
        (some (setAcknowledged w actor now),
         db.map (fun a => if a.id == id then setAcknowledged a actor now else a),
         [ackedLog])) := by
  refine ⟨?_, ?_, by decide, ?_⟩
  · intro h
    simp [acknowledgeWebhook, h]
  · intro w hw hack
    simp [acknowledgeWebhook, hw, hack]
  · intro w hw hack
    rw [getAlertDb] at hw
    have hpw := List.find?_some hw
    have hany : db.any (fun a => a.id == id) = true :=
      List.any_eq_true.mpr ⟨w, List.mem_of_find?_eq_some hw, hpw⟩
    have hpres : ∀ a : Alert,
        (fun a : Alert => a.id == id)
          (if a.id == id then setAcknowledged a actor now else a) =
        (fun a : Alert => a.id == id) a := by
      intro a
      by_cases hc : a.id == id <;> simp [hc, setAcknowledged]
    have hfm := find?_map_of_pred_eq
      (fun a => if a.id == id then setAcknowledged a actor now else a)
      (fun a => a.id == id) db hpres
    simp only [acknowledgeWebhook, getAlertDb, hw, hack, updateAlertAck, hany,
      Bool.false_eq_true, if_false, if_true]
    rw [hfm, hw]
    simp only [Option.map_some']
    rw [if_pos hpw]

/-- An already-acknowledged alert record. -/
def cxAckedAlert : Alert :=
  { id := "alert_9", timestamp := 3, payload := cxPayload,
    acknowledged := true, acknowledgedBy := some "carol",
    acknowledgedAt := some 4 }

/-- Witness for C8: re-acknowledging an already-acknowledged alert reports
the already-acknowledged signal and leaves the store unchanged. -/
theorem acknowledgeWebhook_spec_witness :
    getAlertDb [cxAckedAlert] "alert_9" = some cxAckedAlert ∧
    acknowledgeWebhook "alert_9" "bob" 9 [cxAckedAlert] =
      (none, [cxAckedAlert], [alreadyAckedLog]) :=
  ⟨by decide,
   (acknowledgeWebhook_spec "alert_9" "bob" 9 [cxAckedAlert]).2.1 cxAckedAlert
     (by decide) (by decide)⟩

/-! ### C7: acknowledgment by pattern -/

/-- The per-alert condition of the acknowledgment loop: not yet
acknowledged and matched by the compiled pattern against the synthesized
(ack-side) search text. -/
def ackMatch (re : RE) (w : Alert) : Bool :=
  !w.acknowledged && test re (ackSearchText w.payload)

/-- Unfolding of the fetch-by-id step over a cons cell as a conditional. -/
theorem find?_cons_eq (p : Alert → Bool) (a : Alert) (l : List Alert) :
    (a :: l).find? p = if p a then some a else l.find? p := by
  cases h : p a with
  | true =>
    rw [List.find?_cons_of_pos _ h]
    simp
  | false =>
    rw [List.find?_cons_of_neg _ (by simp [h])]
    simp

/-- Fetching by id in a store with distinct ids returns the record
itself. -/
theorem find?_id_of_mem_nodup (db : List Alert) (w : Alert)
    (hmem : w ∈ db) (hnd : (db.map (fun a => a.id)).Nodup) :
    db.find? (fun a => a.id == w.id) = some w := by
  induction db with
  | nil => cases hmem
  | cons a t ih =>
    rw [find?_cons_eq (fun a => a.id == w.id) a t]
    rcases List.mem_cons.mp hmem with rfl | hm
    · rw [if_pos (by simp)]
    · have hne : ¬((a.id == w.id) = true) := by
        intro hbeq
        have hid : a.id = w.id := by simpa using hbeq
        have hw : w.id ∈ t.map (fun x => x.id) := List.mem_map_of_mem _ hm
        rw [List.map_cons] at hnd
        exact (List.nodup_cons.mp hnd).1 (hid ▸ hw)
      rw [if_neg hne]
      rw [List.map_cons] at hnd
      exact ih hm (List.nodup_cons.mp hnd).2

/-- The acknowledgment update preserves the id column. -/
theorem updateAck_map_id (db : List Alert) (x actor : String) (now : Nat) :
    ((db.map (fun a => if a.id == x then setAcknowledged a actor now else a)).map
      (fun a => a.id)) = db.map (fun a => a.id) := by
  rw [List.map_map]
  apply List.map_congr_left
  intro a _
  by_cases hc : a.id = x
  · simp [hc, setAcknowledged]
  · simp [hc]

/-- Closed form of the acknowledgment loop: over a scanned window whose
records are present in a store with distinct ids, the loop returns the
updated copies of exactly the window entries satisfying `ackMatch`, and the
final store updates exactly the records carrying one of those ids. -/
theorem ackByPatternLoop_closed (re : RE) (actor : String) (now : Nat)
    (ws : List Alert) :
    ∀ db : List Alert, (∀ w ∈ ws, w ∈ db) →
    ((db.map (fun a => a.id)).Nodup) → ((ws.map (fun a => a.id)).Nodup) →
    ackByPatternLoop re actor now ws db =
      ((ws.filter (ackMatch re)).map (fun w => setAcknowledged w actor now),
       db.map (fun a =>
         if (ws.filter (ackMatch re)).any (fun v => v.id == a.id)
         then setAcknowledged a actor now else a)) := by
  induction ws with
  | nil =>
    intro db _ _ _
    simp [ackByPatternLoop]
  | cons w ws ih =>
    intro db hsub hndb hnws
    have hwdb : w ∈ db := hsub w (List.mem_cons_self w ws)
    have hhead : w.id ∉ ws.map (fun a => a.id) := by
      rw [List.map_cons] at hnws
      exact (List.nodup_cons.mp hnws).1
    have htail : (ws.map (fun a => a.id)).Nodup := by
      rw [List.map_cons] at hnws
      exact (List.nodup_cons.mp hnws).2
    by_cases hwa : w.acknowledged = true
    · have hmatch : ackMatch re w = false := by simp [ackMatch, hwa]
      rw [List.filter_cons_of_neg (by simp [hmatch])]
      rw [show ackByPatternLoop re actor now (w :: ws) db =
            ackByPatternLoop re actor now ws db by
          simp [ackByPatternLoop, hwa]]
      exact ih db (fun v hv => hsub v (List.mem_cons_of_mem w hv)) hndb htail
    · have hwa' : w.acknowledged = false := by
        cases h : w.acknowledged
        · rfl
        · exact absurd h hwa
      by_cases htest : test re (ackSearchText w.payload) = true
      · have hmatch : ackMatch re w = true := by simp [ackMatch, hwa', htest]
        have hany : db.any (fun a => a.id == w.id) = true :=
          List.any_eq_true.mpr ⟨w, hwdb, by simp⟩
        have hsub' : ∀ v ∈ ws, v ∈
            db.map (fun a => if a.id == w.id then setAcknowledged a actor now else a) := by
          intro v hv
          have hvne : ¬((v.id == w.id) = true) := by
            intro hbeq
            have hid : v.id = w.id := by simpa using hbeq
            exact hhead (hid ▸ List.mem_map_of_mem _ hv)
          have hfv : (if v.id == w.id then setAcknowledged v actor now else v) = v := by
            rw [if_neg hvne]
          exact hfv ▸ List.mem_map_of_mem _ (hsub v (List.mem_cons_of_mem w hv))
        have hrec := ih
          (db.map (fun a => if a.id == w.id then setAcknowledged a actor now else a))
          hsub' (by rw [updateAck_map_id]; exact hndb) htail
        have hget : (db.map
            (fun a => if a.id == w.id then setAcknowledged a actor now else a)).find?
              (fun a => a.id == w.id) = some (setAcknowledged w actor now) := by
          rw [find?_map_of_pred_eq _ _ db (by
            intro a
            by_cases hc : a.id = w.id
            · simp [hc, setAcknowledged]
            · simp [hc])]
          rw [find?_id_of_mem_nodup db w hwdb hndb]
          simp
        rw [show ackByPatternLoop re actor now (w :: ws) db =
              ((getAlertDb (db.map (fun a =>
                  if a.id == w.id then setAcknowledged a actor now else a)) w.id).toList ++
                (ackByPatternLoop re actor now ws (db.map (fun a =>
                  if a.id == w.id then setAcknowledged a actor now else a))).1,
               (ackByPatternLoop re actor now ws (db.map (fun a =>
                  if a.id == w.id then setAcknowledged a actor now else a))).2) by
            simp [ackByPatternLoop, hwa', htest, updateAlertAck, hany]]
        rw [hrec, List.filter_cons_of_pos (by simp [hmatch])]
        rw [Prod.mk.injEq]
        constructor
        · rw [getAlertDb, hget]
          rfl
        · rw [List.map_map]
          apply List.map_congr_left
          intro a _
          simp only [Function.comp_apply]
          by_cases hc : a.id = w.id
          · have hS : ((ws.filter (ackMatch re)).any (fun v => v.id == a.id)) = false := by
              cases hcc : ((ws.filter (ackMatch re)).any (fun v => v.id == a.id)) with
              | false => rfl
              | true =>
                exfalso
                rcases List.any_eq_true.mp hcc with ⟨v, hvmem, hvid⟩
                have hvid' : v.id = a.id := by simpa using hvid
                exact hhead (List.mem_map.mpr
                  ⟨v, List.mem_of_mem_filter hvmem, by rw [hvid', hc]⟩)
            rw [if_pos (show (a.id == w.id) = true by simp [hc])]
            simp only [show (setAcknowledged a actor now).id = a.id from rfl, hS]
            rw [List.any_cons]
            simp [hc]
          · rw [if_neg (show ¬((a.id == w.id) = true) by simp [hc])]
            rw [List.any_cons]
            have hwne : (w.id == a.id) = false := by
              simp only [beq_eq_false_iff_ne]
              intro hh
              exact hc hh.symm
            rw [hwne]
            simp
      · have hmatch : ackMatch re w = false := by simp [ackMatch, htest]
        rw [List.filter_cons_of_neg (by simp [hmatch])]
        rw [show ackByPatternLoop re actor now (w :: ws) db =
              ackByPatternLoop re actor now ws db by
            simp [ackByPatternLoop, hwa', htest]]
        exact ih db (fun v hv => hsub v (List.mem_cons_of_mem w hv)) hndb htail

/-- An unacknowledged alert whose only populated payload field is
`source`. -/
def cxSourceAlert : Alert :=
  { id := "alert_src", timestamp := 1,
    payload := { source := some "disk-widget" } }

/-- Counterexample for C7 as stated: the alert whose source field (and
nothing else) matches the pattern is inside the scanned window and
unacknowledged, and the Pattern Matcher contract search text (which
includes source) matches the pattern, yet pattern-based acknowledgment
acknowledges nothing and leaves the store unchanged — the ack-side search
text omits the source field. -/
theorem ackByPattern_source_counterexample :
    getRecentAlerts [cxSourceAlert] 100 false = [cxSourceAlert] ∧
    cxSourceAlert.acknowledged = false ∧
    test ((compileRegex "disk").getD .fail)
      (silenceSearchText cxSourceAlert.payload) = true ∧
    acknowledgeWebhooksByPattern "disk" "alice" 5 [cxSourceAlert] =
      .ok ([], [], [cxSourceAlert]) := by
  refine ⟨rfl, rfl, by decide, rfl⟩

/-- C7 as amended: over a store with distinct ids, pattern-based
acknowledgment acknowledges exactly those alerts of the scanned window (the
100 most recent unacknowledged alerts) whose synthesized search text —
title, description, severity, service and hostname, without source —
matches the pattern; every other record of the store, including everything
outside the window and everything already acknowledged, is returned
unchanged, and the newly acknowledged records are returned in scan
order. -/
theorem ackByPattern_characterization (pattern actor : String) (now : Nat)
    (db : List Alert) (re : RE)
    (hre : compileRegex pattern = some re)
    (hnd : (db.map (fun a => a.id)).Nodup) :
    acknowledgeWebhooksByPattern pattern actor now db =
      .ok (((getRecentAlerts db 100 false).filter
              (fun w => test re (ackSearchText w.payload))).map
            (fun w => setAcknowledged w actor now),
           [],
           db.map (fun a =>
             if ((getRecentAlerts db 100 false).filter
                  (fun w => test re (ackSearchText w.payload))).any
                 (fun v => v.id == a.id)
             then setAcknowledged a actor now else a)) := by
  have hwin : getRecentAlerts db 100 false =
      (db.filter (fun a => !a.acknowledged)).take 100 := rfl
  have hsubl : List.Sublist (getRecentAlerts db 100 false) db := by
    rw [hwin]
    exact (List.take_sublist _ _).trans (List.filter_sublist db)
  have hnws : ((getRecentAlerts db 100 false).map (fun a => a.id)).Nodup :=
    hnd.sublist (hsubl.map _)
  have hclosed := ackByPatternLoop_closed re actor now
    (getRecentAlerts db 100 false) db (fun w hw => hsubl.subset hw) hnd hnws
  have hunack : ∀ w ∈ getRecentAlerts db 100 false, w.acknowledged = false := by
    intro w hw
    rw [hwin] at hw
    have hmf := (List.mem_filter.mp (List.mem_of_mem_take hw)).2
    simpa using hmf
  have hfe : (getRecentAlerts db 100 false).filter (ackMatch re) =
      (getRecentAlerts db 100 false).filter
        (fun w => test re (ackSearchText w.payload)) := by
    apply List.filter_congr
    intro w hw
    simp [ackMatch, hunack w hw]
  simp only [acknowledgeWebhooksByPattern, hre]
  rw [hclosed, hfe]

/-- An unacknowledged alert whose title mentions disk. -/
def cxDiskAlert : Alert :=
  { id := "alert_d", timestamp := 2, payload := { title := some "disk full" } }

/-- Witness for the amended C7 on a two-alert store (one matching
unacknowledged alert, one already-acknowledged alert). -/
theorem ackByPattern_characterization_witness :
    compileRegex "disk" = some ((compileRegex "disk").getD .fail) ∧
    (([cxDiskAlert, cxAckedAlert].map (fun a => a.id)).Nodup) ∧
    acknowledgeWebhooksByPattern "disk" "alice" 7 [cxDiskAlert, cxAckedAlert] =
      .ok (((getRecentAlerts [cxDiskAlert, cxAckedAlert] 100 false).filter
              (fun w => test ((compileRegex "disk").getD .fail)
                (ackSearchText w.payload))).map
            (fun w => setAcknowledged w "alice" 7),
           [],
           [cxDiskAlert, cxAckedAlert].map (fun a =>
             if ((getRecentAlerts [cxDiskAlert, cxAckedAlert] 100 false).filter
                  (fun w => test ((compileRegex "disk").getD .fail)
                    (ackSearchText w.payload))).any
                 (fun v => v.id == a.id)
             then setAcknowledged a "alice" 7 else a)) :=
  ⟨by decide, by decide,
   ackByPattern_characterization "disk" "alice" 7 [cxDiskAlert, cxAckedAlert]
     ((compileRegex "disk").getD .fail) (by decide) (by decide)⟩

end Alarmageddon
